import Mathlib

/-!
Verification development for the webdriver-components page-object framework.

The repository's core module (`webdriver_components.pageobjects`: `Component`,
`Css`, the lazy selector-resolution engine and the retry/poll engine) is
consumed by the notebook demos but its implementation file is not part of the
sources available here; the definitions below are therefore modelled from the
specification of that core (data model, resolution algorithm, retry algorithm,
error taxonomy) and exercised on the concrete fixtures that the notebook uses
(name forms, nested name forms, item lists, the delayed button page).

Modelling conventions:
- a remote element handle is its path in the document tree (`List Nat`),
  document order being the order of the page's element list;
- selector matching is delegated to the driver: an element records the set of
  selector strings that match it;
- time is discretised into poll intervals: `tick` advances the world by one
  poll interval, and the retry deadline is a fuel count of allowed re-polls.
-/

set_option autoImplicit false

namespace WebdriverComponents

/-- Modelled from the spec: classified transient (retryable) failure kinds. -/
inductive TransientKind where
  | NotFound
  | NotVisible
  | NotInteractable
  | StaleReference
deriving DecidableEq, Repr

/-- Modelled from the spec: classified fatal (non-retryable) failure kinds. -/
inductive FatalKind where
  | SessionError
  | InvalidSelector
deriving DecidableEq, Repr

/-- Modelled from the spec: a classified driver/resolution failure. -/
inductive Failure where
  | transient (k : TransientKind)
  | fatal (k : FatalKind)
deriving DecidableEq, Repr

/-- Modelled from the spec: what the retry/poll engine can surface to the
caller: a `RetryTimeout` embedding the last observed transient failure, or a
fatal failure propagated unwrapped. A bare transient failure is not
representable here: it can never escape the retry loop. -/
inductive RetryError where
  | timeout (last : TransientKind)
  | fatal (k : FatalKind)
deriving DecidableEq, Repr

/-- A handle to one live remote element: its path in the document tree. -/
abbrev ElemId := List Nat

/-- A query scope: `none` is the whole document, `some h` the subtree rooted
at the element with handle `h`. -/
abbrev Scope := Option ElemId

/-- Modelled from the spec: the driver-adapter interface the core consumes,
over an abstract world state `σ`. Queries and reads observe the state; actions
may mutate it; `tick` is the passage of one poll interval of real time. -/
structure Driver (σ : Type) where
  query : σ → Scope → String → List ElemId
  readText : σ → ElemId → Except Failure String
  readProperty : σ → ElemId → Except Failure String
  click : σ → ElemId → Except Failure Unit × σ
  setText : σ → ElemId → String → Except Failure Unit × σ
  tick : σ → σ

/-- Modelled from the spec: a component instance owns no handle, only a
scope-resolution function producing the current root at the moment of use. -/
def ScopeFn (σ : Type) := σ → Except Failure Scope

/-- The scope of a top-level component: the whole document, always. -/
def documentScope {σ : Type} : ScopeFn σ := fun _ => .ok none

/-- Modelled from the spec: a selector descriptor — immutable declarative
data attached to a named slot of a component schema. -/
structure Css where
  selector : String
  multiple : Bool := false
deriving DecidableEq, Repr

/-- Modelled from the spec, resolution engine steps 1-2 and 3′: obtain the
current root from the scope function, then query the driver; all matches are
kept in document order, and zero matches is an empty list, not an error. -/
def resolveAll {σ : Type} (d : Driver σ) (scope : ScopeFn σ) (sel : String)
    (s : σ) : Except Failure (List ElemId) :=
  match scope s with
  | .error e => .error e
  | .ok root => .ok (d.query s root sel)

/-- Modelled from the spec, resolution engine step 3 (cardinality Single):
zero matches is a classified retryable not-found failure; otherwise the first
match in document order is taken. The engine performs exactly one query and
never retries on its own. -/
def resolveSingle {σ : Type} (d : Driver σ) (scope : ScopeFn σ) (sel : String)
    (s : σ) : Except Failure ElemId :=
  match resolveAll d scope sel s with
  | .error e => .error e
  | .ok [] => .error (.transient .NotFound)
  | .ok (e :: _) => .ok e

/-- Modelled from the spec, resolution engine step 4: the scope function of a
nested child component re-derives the parent's root at every use — it re-runs
the parent resolution against the outer scope instead of capturing a handle. -/
def childScope {σ : Type} (d : Driver σ) (scope : ScopeFn σ) (sel : String) :
    ScopeFn σ :=
  fun s =>
    match resolveSingle d scope sel s with
    | .error e => .error e
    | .ok h => .ok (some h)

/-- Modelled from the spec: the scope of the nested component at index `i` of
a multiple-cardinality slot re-runs the whole query and selects the i-th match
at access time, never a cached i-th handle from a prior query. -/
def childScopeAt {σ : Type} (d : Driver σ) (scope : ScopeFn σ) (sel : String)
    (i : Nat) : ScopeFn σ :=
  fun s =>
    match resolveAll d scope sel s with
    | .error e => .error e
    | .ok l =>
      match l[i]? with
      | some h => .ok (some h)
      | none => .error (.transient .NotFound)

/-- Combine a resolver with a driver operation on the resolved handle: the
handle is obtained fresh, then used at once for the single call. A resolution
failure leaves the world unchanged. -/
def actOn {σ α : Type} (resolver : σ → Except Failure ElemId)
    (act : σ → ElemId → Except Failure α × σ) : σ → Except Failure α × σ :=
  fun s =>
    match resolver s with
    | .error e => (.error e, s)
    | .ok h => act s h

/-- Modelled from the spec, retry/poll engine: run one attempt; on success or
on a classified fatal failure stop at once; on a classified transient failure
sleep one poll interval (`tk`) and retry while fuel remains, else surface a
timeout embedding the last observed transient failure. The fuel is the number
of re-polls the deadline allows, so `fuel + 1` attempts happen at most. The
second component counts the attempts actually executed. -/
def retryRun {σ α : Type} (tk : σ → σ) (op : σ → Except Failure α × σ) :
    Nat → σ → (Except RetryError α × σ) × Nat
  | 0, s =>
    match op s with
    | (.ok a, s') => ((.ok a, s'), 1)
    | (.error (.fatal k), s') => ((.error (.fatal k), s'), 1)
    | (.error (.transient k), s') => ((.error (.timeout k), s'), 1)
  | fuel + 1, s =>
    match op s with
    | (.ok a, s') => ((.ok a, s'), 1)
    | (.error (.fatal k), s') => ((.error (.fatal k), s'), 1)
    | (.error (.transient _), s') =>
      let r := retryRun tk op fuel (tk s')
      (r.1, r.2 + 1)

/-- Modelled from the spec: `withRetry` is the single point every read and
action passes through; it returns the final result and world state. -/
def withRetry {σ α : Type} (tk : σ → σ) (op : σ → Except Failure α × σ)
    (fuel : Nat) (s : σ) : Except RetryError α × σ :=
  (retryRun tk op fuel s).1

/-- Number of attempts the retry loop actually executed. -/
def attemptsUsed {σ α : Type} (tk : σ → σ) (op : σ → Except Failure α × σ)
    (fuel : Nat) (s : σ) : Nat :=
  (retryRun tk op fuel s).2

/-- The world state at which attempt number `i` (0-based) runs, when every
earlier attempt failed: each failed attempt leaves its resulting state, then
one poll interval passes. -/
def attemptWorld {σ α : Type} (tk : σ → σ) (op : σ → Except Failure α × σ)
    (s : σ) : Nat → σ
  | 0 => s
  | i + 1 => tk (op (attemptWorld tk op s i)).2

/-- Modelled from the spec: slot action `set_text` — resolve the single
handle freshly, act on it, all inside the retry loop. -/
def slotSetText {σ : Type} (d : Driver σ) (scope : ScopeFn σ) (c : Css)
    (txt : String) (fuel : Nat) : σ → Except RetryError Unit × σ :=
  withRetry d.tick
    (actOn (resolveSingle d scope c.selector) (fun s h => d.setText s h txt))
    fuel

/-- Modelled from the spec: slot action `click`. -/
def slotClick {σ : Type} (d : Driver σ) (scope : ScopeFn σ) (c : Css)
    (fuel : Nat) : σ → Except RetryError Unit × σ :=
  withRetry d.tick
    (actOn (resolveSingle d scope c.selector) (fun s h => d.click s h)) fuel

/-- Modelled from the spec: slot read `value` (form-field property), through
the same retry loop as actions. -/
def slotValue {σ : Type} (d : Driver σ) (scope : ScopeFn σ) (c : Css)
    (fuel : Nat) : σ → Except RetryError String × σ :=
  withRetry d.tick
    (actOn (resolveSingle d scope c.selector)
      (fun s h => (d.readProperty s h, s)))
    fuel

/-- Modelled from the spec: slot read `text`, through the same retry loop. -/
def slotText {σ : Type} (d : Driver σ) (scope : ScopeFn σ) (c : Css)
    (fuel : Nat) : σ → Except RetryError String × σ :=
  withRetry d.tick
    (actOn (resolveSingle d scope c.selector) (fun s h => (d.readText s h, s)))
    fuel

/-- Modelled from the spec: multiple-cardinality collection length is
determined by re-querying at length-check time. -/
def collectionLength {σ : Type} (d : Driver σ) (scope : ScopeFn σ) (c : Css)
    (s : σ) : Except Failure Nat :=
  match resolveAll d scope c.selector s with
  | .error e => .error e
  | .ok l => .ok l.length

/-- Modelled from the spec: positional indexing of a multiple-cardinality
collection re-runs the query, then selects the position in the fresh result. -/
def collectionIndex {σ : Type} (d : Driver σ) (scope : ScopeFn σ) (c : Css)
    (i : Nat) (s : σ) : Except Failure ElemId :=
  match resolveAll d scope c.selector s with
  | .error e => .error e
  | .ok l =>
    match l[i]? with
    | some h => .ok h
    | none => .error (.transient .NotFound)

/-- Text of the element at position `i` of a multiple-cardinality slot, read
from the current world state. -/
def collectionIndexText {σ : Type} (d : Driver σ) (scope : ScopeFn σ)
    (c : Css) (i : Nat) (s : σ) : Except Failure String :=
  match collectionIndex d scope c i s with
  | .error e => .error e
  | .ok h => d.readText s h

/-- Modelled from the spec: sequential iteration of a multiple-cardinality
collection performs exactly one re-query, whose snapshot is then iterated for
that single pass. -/
def collectionIterate {σ : Type} (d : Driver σ) (scope : ScopeFn σ) (c : Css)
    (s : σ) : Except Failure (List ElemId) :=
  resolveAll d scope c.selector s

/-- Texts produced by one iteration pass: one query, then the snapshot is
walked element by element. -/
def collectionTexts {σ : Type} (d : Driver σ) (scope : ScopeFn σ) (c : Css)
    (s : σ) : Except Failure (List String) :=
  match collectionIterate d scope c s with
  | .error e => .error e
  | .ok l => l.mapM (d.readText s)

/-- Modelled from the spec: the argument forms accepted by `Component.get` —
a bare selector string, a `Css` descriptor, or a list of `Css` descriptors
forming a nesting path. -/
inductive GetArg where
  | strSel (s : String)
  | cssSel (c : Css)
  | cssPath (cs : List Css)
deriving DecidableEq, Repr

/-- Modelled from the spec: `Component.get` normalises its argument to a list
of descriptors; a bare string is a single-cardinality Css selector. -/
def normalizeGet : GetArg → List Css
  | .strSel s => [{ selector := s }]
  | .cssSel c => [c]
  | .cssPath cs => cs

/-- Resolve a normalised descriptor path: each step scopes the next query to
the freshly resolved previous match. The empty path is a degenerate argument
and is rejected as an invalid selector. -/
def resolveChain {σ : Type} (d : Driver σ) (scope : ScopeFn σ) :
    List Css → σ → Except Failure ElemId
  | [], _ => .error (.fatal .InvalidSelector)
  | [c], s => resolveSingle d scope c.selector s
  | c :: c' :: rest, s =>
    resolveChain d (childScope d scope c.selector) (c' :: rest) s

/-- Modelled from the spec: `Component.get` — resolve whatever argument form
was given, under the component's own scope. -/
def componentGet {σ : Type} (d : Driver σ) (scope : ScopeFn σ) (arg : GetArg)
    (s : σ) : Except Failure ElemId :=
  resolveChain d scope (normalizeGet arg) s

/-- `set_text` reached through `Component.get` instead of a declared slot:
the same resolve-then-act operation inside the same retry loop. -/
def getSetText {σ : Type} (d : Driver σ) (scope : ScopeFn σ) (arg : GetArg)
    (txt : String) (fuel : Nat) : σ → Except RetryError Unit × σ :=
  withRetry d.tick
    (actOn (componentGet d scope arg) (fun s h => d.setText s h txt)) fuel

/-! ## Concrete page model

A faithful executable instance of the driver-adapter interface: a page is a
list of elements in document order; each element carries its tree path, the
selector strings that match it, its text, its form value and whether it is
displayed. -/

/-- One DOM element of a concrete fixture page. -/
structure Elem where
  path : List Nat
  sels : List String
  text : String
  value : String
  displayed : Bool
deriving DecidableEq, Repr

/-- A concrete page: its elements in document order. -/
abbrev Page := List Elem

/-- Whether path `p` lies strictly under path `r` in the document tree. -/
def isUnder : List Nat → List Nat → Bool
  | [], [] => false
  | [], _ :: _ => true
  | _ :: _, [] => false
  | a :: as, b :: bs => a == b && isUnder as bs

/-- Whether an element path lies inside a query scope. -/
def inScope : Scope → List Nat → Bool
  | none, _ => true
  | some r, q => isUnder r q

/-- The driver's query on a concrete page: the matching elements inside the
scope, in document order. -/
def pageQuery (p : Page) (root : Scope) (sel : String) : List ElemId :=
  (p.filter (fun e => e.sels.contains sel && inScope root e.path)).map
    (fun e => e.path)

/-- Look a handle up in the current page. -/
def findElem (p : Page) (h : ElemId) : Option Elem :=
  p.find? (fun e => e.path == h)

/-- Read an element's text; a handle no longer on the page is stale. -/
def pageReadText (p : Page) (h : ElemId) : Except Failure String :=
  match findElem p h with
  | none => .error (.transient .StaleReference)
  | some e => .ok e.text

/-- Read an element's form value; a missing handle is stale. -/
def pageReadValue (p : Page) (h : ElemId) : Except Failure String :=
  match findElem p h with
  | none => .error (.transient .StaleReference)
  | some e => .ok e.value

/-- Type text into an element: fails transiently while the element is not
displayed, fails stale when the handle is gone, else rewrites its value. -/
def pageSetText (p : Page) (h : ElemId) (txt : String) :
    Except Failure Unit × Page :=
  match findElem p h with
  | none => (.error (.transient .StaleReference), p)
  | some e =>
    if e.displayed then
      (.ok (),
        p.map (fun e' => if e'.path == h then { e' with value := txt } else e'))
    else (.error (.transient .NotVisible), p)

/-- Click an element of a static fixture: no DOM effect, but the same
visibility classification as typing. -/
def pageClick (p : Page) (h : ElemId) : Except Failure Unit × Page :=
  match findElem p h with
  | none => (.error (.transient .StaleReference), p)
  | some e =>
    if e.displayed then (.ok (), p)
    else (.error (.transient .NotVisible), p)

/-- The concrete driver over static fixture pages; time passing changes
nothing on a static page. -/
def pageDriver : Driver Page where
  query := pageQuery
  readText := pageReadText
  readProperty := pageReadValue
  click := pageClick
  setText := pageSetText
  tick := id

/-! ## The notebook's component schemas and fixtures -/

/-- Slot descriptor `first_name = Css('.first-name')` of `NameForm`. -/
def NameForm.first_name : Css := { selector := ".first-name" }

/-- Slot descriptor `last_name = Css('.last-name')` of `NameForm`. -/
def NameForm.last_name : Css := { selector := ".last-name" }

/-- The two-text-input fixture page of the `NameForm` demo. -/
def nameFormPage : Page :=
  [{ path := [0], sels := [".first-name"], text := "", value := "",
     displayed := true },
   { path := [1], sels := [".last-name"], text := "", value := "",
     displayed := true }]

/-- Composite behavior `NameForm.set_name`: two slot actions in sequence,
each with its own retry loop; a failure of the first aborts the sequence, a
failure of the second leaves the first action's effect in place. -/
def set_name (fuel : Nat) (s1 s2 : String) (p : Page) :
    Except RetryError Unit × Page :=
  match slotSetText pageDriver documentScope NameForm.first_name s1 fuel p with
  | (.ok _, p1) => slotSetText pageDriver documentScope NameForm.last_name s2 fuel p1
  | (.error e, p1) => (.error e, p1)

/-- Slot descriptor `name_form_1 = Css('.name-form-1', factory=...)`. -/
def MultipleNameForms.name_form_1 : Css := { selector := ".name-form-1" }

/-- Slot descriptor `name_form_2 = Css('.name-form-2', factory=...)`. -/
def MultipleNameForms.name_form_2 : Css := { selector := ".name-form-2" }

/-- The `MultipleNameForms` fixture: two name-form divs, each containing a
first-name and a last-name input — the inner selectors match elements both
inside and outside either form's subtree. -/
def multiFormPage : Page :=
  [{ path := [0], sels := [".name-form-1"], text := "", value := "",
     displayed := true },
   { path := [0, 0], sels := [".first-name"], text := "", value := "",
     displayed := true },
   { path := [0, 1], sels := [".last-name"], text := "", value := "",
     displayed := true },
   { path := [1], sels := [".name-form-2"], text := "", value := "",
     displayed := true },
   { path := [1, 0], sels := [".first-name"], text := "", value := "",
     displayed := true },
   { path := [1, 1], sels := [".last-name"], text := "", value := "",
     displayed := true }]

/-- Slot descriptor `list_items = Css('.mylist li', multiple=True)`. -/
def ListPage.list_items : Css := { selector := ".mylist li", multiple := true }

/-- The three-item list fixture of the `ListPage` demo. -/
def listPage3 : Page :=
  [{ path := [0], sels := [".mylist"], text := "", value := "",
     displayed := true },
   { path := [0, 0], sels := [".mylist li"], text := "first item", value := "",
     displayed := true },
   { path := [0, 1], sels := [".mylist li"], text := "second item",
     value := "", displayed := true },
   { path := [0, 2], sels := [".mylist li"], text := "third item", value := "",
     displayed := true }]

/-- The same list after the underlying DOM has been reordered: the element at
each document position now carries a different text. -/
def listPage3R : Page :=
  [{ path := [0], sels := [".mylist"], text := "", value := "",
     displayed := true },
   { path := [0, 0], sels := [".mylist li"], text := "third item", value := "",
     displayed := true },
   { path := [0, 1], sels := [".mylist li"], text := "second item",
     value := "", displayed := true },
   { path := [0, 2], sels := [".mylist li"], text := "first item", value := "",
     displayed := true }]

/-- A `NameForm` page whose last-name input never becomes visible, so the
second half of `set_name` can never complete. -/
def hiddenLastPage : Page :=
  [{ path := [0], sels := [".first-name"], text := "", value := "",
     displayed := true },
   { path := [1], sels := [".last-name"], text := "", value := "",
     displayed := false }]

/-! ## The delayed-button fixture

The notebook's auto-retry demo: a button hidden at load, displayed after a
fixed delay `D` (in poll intervals); clicking it writes `clicked!` into the
output span. -/

/-- World state of the delayed-button page: elapsed poll intervals and the
output span's current text. -/
structure BtnSt where
  clock : Nat
  output : String
deriving DecidableEq, Repr

/-- Slot descriptor `button = Css('#mybutton')`. -/
def DelayedButtonPage.button : Css := { selector := "#mybutton" }

/-- Slot descriptor `output = Css('#output')`. -/
def DelayedButtonPage.output : Css := { selector := "#output" }

/-- The driver over the delayed-button page: the button element exists from
the start (the query finds it) but is not clickable before `D` intervals have
elapsed; clicking it afterwards rewrites the output span. -/
def delayedDriver (D : Nat) : Driver BtnSt where
  query _ root sel :=
    match root with
    | none =>
      if sel == "#mybutton" then [[0]]
      else if sel == "#output" then [[1]] else []
    | some _ => []
  readText s e :=
    if e == [1] then .ok s.output
    else if e == [0] then .ok "Click me"
    else .error (.transient .StaleReference)
  readProperty _ _ := .error (.transient .StaleReference)
  click s e :=
    if e == [0] then
      if D ≤ s.clock then (.ok (), { clock := s.clock, output := "clicked!" })
      else (.error (.transient .NotVisible), s)
    else (.error (.transient .StaleReference), s)
  setText s _ _ := (.error (.transient .NotInteractable), s)
  tick s := { clock := s.clock + 1, output := s.output }

/-- The whole delayed-button interaction: click the button slot with the
given retry fuel, starting at page load. -/
def clickButton (D fuel : Nat) : Except RetryError Unit × BtnSt :=
  slotClick (delayedDriver D) documentScope DelayedButtonPage.button fuel
    { clock := 0, output := "" }

/-- Read the output slot of the delayed-button page in a given world state. -/
def readOutput (D : Nat) (s : BtnSt) : Except RetryError String × BtnSt :=
  slotText (delayedDriver D) documentScope DelayedButtonPage.output 0 s

/-- The single attempt the delayed-button click retries: resolve the button
freshly, then click it. -/
def btnClickOp (D : Nat) : BtnSt → Except Failure Unit × BtnSt :=
  actOn
    (resolveSingle (delayedDriver D) documentScope
      DelayedButtonPage.button.selector)
    (fun s h => (delayedDriver D).click s h)

/-- The `NameForm` fixture after both `set_text` calls of the round-trip demo
have succeeded. -/
def nameFormAfterSet (s1 s2 : String) : Page :=
  (slotSetText pageDriver documentScope NameForm.last_name s2 3
    (slotSetText pageDriver documentScope NameForm.first_name s1 3
      nameFormPage).2).2

/-- The hidden-last-name fixture after the first half of `set_name` wrote
`s1` into the visible first-name input. -/
def hiddenAfterFirst (s1 : String) : Page :=
  [{ path := [0], sels := [".first-name"], text := "", value := s1,
     displayed := true },
   { path := [1], sels := [".last-name"], text := "", value := "",
     displayed := false }]

/-! ## Helper lemmas about the retry loop -/

theorem retryRun_first_ok {σ α : Type} (tk : σ → σ)
    (op : σ → Except Failure α × σ) (fuel : Nat) (s : σ) (a : α) (s' : σ)
    (h : op s = (.ok a, s')) :
    retryRun tk op fuel s = ((.ok a, s'), 1) := by
  cases fuel <;> simp [retryRun, h]

theorem retryRun_first_fatal {σ α : Type} (tk : σ → σ)
    (op : σ → Except Failure α × σ) (fuel : Nat) (s : σ) (k : FatalKind)
    (s' : σ) (h : op s = (.error (.fatal k), s')) :
    retryRun tk op fuel s = ((.error (.fatal k), s'), 1) := by
  cases fuel <;> simp [retryRun, h]

theorem retryRun_stuck {σ α : Type} (tk : σ → σ)
    (op : σ → Except Failure α × σ) (k : TransientKind) (s : σ)
    (h : op s = (.error (.transient k), s)) (htk : tk s = s) :
    ∀ fuel : Nat, retryRun tk op fuel s = ((.error (.timeout k), s), fuel + 1) := by
  intro fuel
  induction fuel with
  | zero => simp [retryRun, h]
  | succ f ih => simp [retryRun, h, htk, ih]

theorem withRetry_first_ok {σ α : Type} (tk : σ → σ)
    (op : σ → Except Failure α × σ) (fuel : Nat) (s : σ) (a : α) (s' : σ)
    (h : op s = (.ok a, s')) :
    withRetry tk op fuel s = (.ok a, s') := by
  simp [withRetry, retryRun_first_ok tk op fuel s a s' h]

theorem withRetry_stuck {σ α : Type} (tk : σ → σ)
    (op : σ → Except Failure α × σ) (k : TransientKind) (s : σ)
    (h : op s = (.error (.transient k), s)) (htk : tk s = s) (fuel : Nat) :
    withRetry tk op fuel s = (.error (.timeout k), s) := by
  simp [withRetry, retryRun_stuck tk op k s h htk fuel]

theorem attemptWorld_shift {σ α : Type} (tk : σ → σ)
    (op : σ → Except Failure α × σ) (s : σ) :
    ∀ i : Nat, attemptWorld tk op s (i + 1) = attemptWorld tk op (tk (op s).2) i := by
  intro i
  induction i with
  | zero => rfl
  | succ j ih =>
    rw [show attemptWorld tk op s (j + 1 + 1)
          = tk (op (attemptWorld tk op s (j + 1))).2 from rfl, ih]
    rfl

theorem retryRun_timeout_analysis {σ α : Type} (tk : σ → σ)
    (op : σ → Except Failure α × σ) (k : TransientKind) :
    ∀ (fuel : Nat) (s : σ),
      (retryRun tk op fuel s).1.1 = .error (.timeout k) →
      (retryRun tk op fuel s).2 = fuel + 1 ∧
      ∃ s', op (attemptWorld tk op s fuel) = (.error (.transient k), s') := by
  intro fuel
  induction fuel with
  | zero =>
    intro s h
    rcases hop : op s with ⟨r, s'⟩
    match r with
    | .ok a => simp [retryRun, hop] at h
    | .error (.fatal k') => simp [retryRun, hop] at h
    | .error (.transient k') =>
      simp [retryRun, hop] at h
      exact ⟨by simp [retryRun, hop], s', by simp [attemptWorld, hop, h]⟩
  | succ f ih =>
    intro s h
    rcases hop : op s with ⟨r, s'⟩
    match r with
    | .ok a => simp [retryRun, hop] at h
    | .error (.fatal k') => simp [retryRun, hop] at h
    | .error (.transient k') =>
      simp only [retryRun, hop] at h ⊢
      have hrec := ih (tk s') h
      refine ⟨by simpa using hrec.1, ?_⟩
      have hshift := attemptWorld_shift tk op s f
      rw [hshift, hop]
      exact hrec.2

theorem childScope_ok {σ : Type} (d : Driver σ) (scope : ScopeFn σ)
    (psel : String) (s : σ) (a : ElemId)
    (hp : resolveSingle d scope psel s = .ok a) :
    childScope d scope psel s = .ok (some a) := by
  simp [childScope, hp]

theorem childScope_err {σ : Type} (d : Driver σ) (scope : ScopeFn σ)
    (psel : String) (s : σ) (e : Failure)
    (hp : resolveSingle d scope psel s = .error e) :
    childScope d scope psel s = .error e := by
  simp [childScope, hp]

/-- Membership in a page query implies lying inside the query's scope. -/
theorem pageQuery_inScope (p : Page) (root : Scope) (sel : String)
    (x : ElemId) (hx : x ∈ pageQuery p root sel) : inScope root x = true := by
  unfold pageQuery at hx
  rcases List.mem_map.1 hx with ⟨e, he, rfl⟩
  have hf := (List.mem_filter.1 he).2
  simp only [Bool.and_eq_true] at hf
  exact hf.2

/-- Evaluate one click attempt on the delayed-button page: the button always
resolves, and clicking succeeds exactly when the delay has elapsed. -/
theorem btnClickOp_eval (D t : Nat) (out : String) :
    btnClickOp D { clock := t, output := out } =
      if D ≤ t then (.ok (), { clock := t, output := "clicked!" })
      else (.error (.transient .NotVisible), { clock := t, output := out }) := by
  by_cases hD : D ≤ t <;>
    simp [btnClickOp, actOn, resolveSingle, resolveAll, documentScope,
      delayedDriver, DelayedButtonPage.button, hD]

/-- Evaluate the whole retry loop of the delayed-button click, starting at
any clock not past the delay: it succeeds at clock `D` when the deadline
allows reaching it and times out with the `NotVisible` cause otherwise. -/
theorem clickRetry_eval (D : Nat) :
    ∀ (fuel t : Nat) (out : String), t ≤ D →
      withRetry (delayedDriver D).tick (btnClickOp D) fuel
          { clock := t, output := out } =
        if D ≤ t + fuel then (.ok (), { clock := D, output := "clicked!" })
        else (.error (.timeout .NotVisible),
          { clock := t + fuel, output := out }) := by
  intro fuel
  induction fuel with
  | zero =>
    intro t out ht
    by_cases hD : D ≤ t
    · have h1 : t = D := Nat.le_antisymm ht hD
      subst h1
      simp [withRetry, retryRun, btnClickOp_eval, hD]
    · simp [withRetry, retryRun, btnClickOp_eval, hD]
  | succ f ih =>
    intro t out ht
    by_cases hD : D ≤ t
    · have h1 : t = D := Nat.le_antisymm ht hD
      subst h1
      have h2 : t ≤ t + (f + 1) := Nat.le_add_right _ _
      simp [withRetry, retryRun, btnClickOp_eval, hD, Nat.le_trans hD h2]
    · have ht1 : t + 1 ≤ D := Nat.succ_le_of_lt (Nat.lt_of_not_le hD)
      have ihs := ih (t + 1) out ht1
      simp only [withRetry, delayedDriver] at ihs
      have e : t + 1 + f = t + (f + 1) := by omega
      rw [e] at ihs
      simp [withRetry, retryRun, btnClickOp_eval, hD, delayedDriver, ihs]

/-- Reading the output slot of the delayed-button page returns the current
output text, in any world state. -/
theorem readOutput_eval (D : Nat) (s : BtnSt) :
    (readOutput D s).1 = .ok s.output := rfl

/-! ## Claim theorems -/

/-- C1: for a component with two single-cardinality text-input slots, calling
`set_text s1` on the first slot and `set_text s2` on the second, then reading
each slot's `value`, returns exactly `s1` and `s2`, for every pair of written
strings. -/
theorem nameform_set_then_read_roundtrip (s1 s2 : String) :
    (slotValue pageDriver documentScope NameForm.first_name 3
        (nameFormAfterSet s1 s2)).1 = .ok s1 ∧
    (slotValue pageDriver documentScope NameForm.last_name 3
        (nameFormAfterSet s1 s2)).1 = .ok s2 := by
  exact ⟨rfl, rfl⟩

/-- C2: a multiple-cardinality slot resolves, on every page, to exactly the
query's matches — a collection in document order (a sublist of the page's
element sequence) — and zero matches yields `ok []`, an empty collection
rather than an error; concretely, iterating the list slot on a page with no
list items yields the empty collection. -/
theorem multiple_slot_document_order (p : Page) (root : Scope) (sel : String) :
    resolveAll pageDriver (fun _ => .ok root) sel p
        = .ok (pageQuery p root sel) ∧
    (pageQuery p root sel).Sublist (p.map (fun e => e.path)) ∧
    collectionIterate pageDriver documentScope ListPage.list_items p
        = .ok (pageQuery p none ".mylist li") ∧
    collectionIterate pageDriver documentScope ListPage.list_items nameFormPage
        = .ok [] := by
  refine ⟨rfl, ?_, rfl, rfl⟩
  exact (List.filter_sublist p).map (fun e => e.path)

/-- C3: single-cardinality resolution is decided by one driver query — zero
matches produce the classified retryable not-found failure, one or more
matches produce the first match in document order; the resolution engine has
no retry loop of its own, so the failure is reported upward, not retried
(`resolveSingle` runs a single query and is not fuel-indexed). -/
theorem single_resolution_not_found_or_first (σ : Type) (d : Driver σ)
    (scope : ScopeFn σ) (sel : String) (s : σ) (root : Scope)
    (hs : scope s = .ok root) :
    (d.query s root sel = [] →
      resolveSingle d scope sel s = .error (.transient .NotFound)) ∧
    (∀ (e : ElemId) (es : List ElemId), d.query s root sel = e :: es →
      resolveSingle d scope sel s = .ok e) := by
  constructor
  · intro h
    simp [resolveSingle, resolveAll, hs, h]
  · intro e es h
    simp [resolveSingle, resolveAll, hs, h]

/-- Witness for C3 on the three-item list fixture: the query has matches and
resolution returns the first one in document order. -/
theorem single_resolution_not_found_or_first_witness :
    resolveSingle pageDriver documentScope ".mylist li" listPage3
      = .ok [0, 0] := by
  exact (single_resolution_not_found_or_first Page pageDriver documentScope
    ".mylist li" listPage3 none rfl).2 [0, 0] [[0, 1], [0, 2]] rfl

/-- C4: on the delayed-button page, where the target becomes clickable only
after delay `D`, an action whose deadline allows reaching the delay succeeds
and its effect (the output text `clicked!`) is observable afterwards; with a
deadline shorter than the delay the action fails with a `RetryTimeout` that
embeds the last observed transient failure (`NotVisible`). The deadline is
`fuel` re-polls, one poll interval each. -/
theorem delayed_button_retry (D fuel : Nat) :
    (D ≤ fuel →
      clickButton D fuel = (.ok (), { clock := D, output := "clicked!" }) ∧
      (readOutput D (clickButton D fuel).2).1 = .ok "clicked!") ∧
    (fuel < D → (clickButton D fuel).1 = .error (.timeout .NotVisible)) := by
  have key := clickRetry_eval D fuel 0 "" (Nat.zero_le D)
  have hcb : clickButton D fuel
      = withRetry (delayedDriver D).tick (btnClickOp D) fuel
          { clock := 0, output := "" } := rfl
  constructor
  · intro h
    have hc : D ≤ 0 + fuel := by omega
    rw [hcb, key, if_pos hc]
    exact ⟨rfl, rfl⟩
  · intro h
    have hc : ¬D ≤ 0 + fuel := by omega
    rw [hcb, key, if_neg hc]

/-- Witness for C4: with delay 1 and deadline 3 the click succeeds and the
effect is readable; with delay 5 and deadline 2 it times out with the
`NotVisible` cause embedded. -/
theorem delayed_button_retry_witness :
    (clickButton 1 3 = (.ok (), { clock := 1, output := "clicked!" }) ∧
      (readOutput 1 (clickButton 1 3).2).1 = .ok "clicked!") ∧
    (clickButton 5 2).1 = .error (.timeout .NotVisible) :=
  ⟨(delayed_button_retry 1 3).1 (by decide),
   (delayed_button_retry 5 2).2 (by decide)⟩

/-- C5: in every `withRetry` invocation, a classified fatal failure on the
first attempt propagates immediately and unwrapped after exactly one attempt;
and whenever a timeout is surfaced, the deadline was fully exhausted
(`fuel + 1` attempts ran) and the surfaced cause is exactly the transient
failure the last attempt observed — so a transient failure reaches the caller
only wrapped in the timeout, never before the deadline (the result type
`RetryError` cannot even carry a bare transient failure). -/
theorem retry_propagation_policy (σ α : Type) (tk : σ → σ)
    (op : σ → Except Failure α × σ) (fuel : Nat) (s : σ) :
    (∀ (k : FatalKind) (s' : σ), op s = (.error (.fatal k), s') →
      withRetry tk op fuel s = (.error (.fatal k), s') ∧
      attemptsUsed tk op fuel s = 1) ∧
    (∀ k : TransientKind,
      (withRetry tk op fuel s).1 = .error (.timeout k) →
      attemptsUsed tk op fuel s = fuel + 1 ∧
      ∃ s', op (attemptWorld tk op s fuel) = (.error (.transient k), s')) := by
  constructor
  · intro k s' h
    exact ⟨by simp [withRetry, retryRun_first_fatal tk op fuel s k s' h],
      by simp [attemptsUsed, retryRun_first_fatal tk op fuel s k s' h]⟩
  · intro k h
    have ha := retryRun_timeout_analysis tk op k fuel s
      (by simpa [withRetry] using h)
    exact ⟨by simpa [attemptsUsed] using ha.1, ha.2⟩

/-- Witness for C5: a session-level failure is returned unwrapped after one
attempt even though two re-polls of deadline remained. -/
theorem retry_propagation_policy_witness :
    withRetry (id : Nat → Nat)
        (fun n => ((.error (.fatal .SessionError) : Except Failure Unit), n))
        2 0
      = (.error (.fatal .SessionError), 0) ∧
    attemptsUsed (id : Nat → Nat)
        (fun n => ((.error (.fatal .SessionError) : Except Failure Unit), n))
        2 0 = 1 :=
  (retry_propagation_policy Nat Unit id
    (fun n => ((.error (.fatal .SessionError) : Except Failure Unit), n))
    2 0).1 .SessionError 0 rfl

/-- C6: the collection of a multiple-cardinality slot is only the recipe
(scope and descriptor), never a stored handle: indexing it at position `i` in
world state `p` re-runs the selector query against `p` and selects the i-th
match of that fresh result, for every current page `p` — so after the
underlying DOM list is reordered, index 0 reads `third item` where it
previously read `first item`, reflecting the current page at each access. -/
theorem no_cached_handles_current_state (p : Page) (i : Nat) :
    collectionIndex pageDriver documentScope ListPage.list_items i p
        = (match (pageQuery p none ".mylist li")[i]? with
           | some h => .ok h
           | none => .error (.transient .NotFound)) ∧
    collectionIndexText pageDriver documentScope ListPage.list_items 0
        listPage3 = .ok "first item" ∧
    collectionIndexText pageDriver documentScope ListPage.list_items 0
        listPage3R = .ok "third item" :=
  ⟨rfl, rfl, rfl⟩

/-- C7: a child slot of a nested component is queried relative to the
parent's freshly resolved root, so whenever it resolves to a handle, the
parent root resolved in the same state and the handle lies strictly inside
the parent's subtree — even if the child selector also matches elements
outside it. -/
theorem nested_scoping_inside_parent (p : Page) (psel csel : String)
    (h : ElemId)
    (hres : resolveSingle pageDriver
        (childScope pageDriver documentScope psel) csel p = .ok h) :
    ∃ a : ElemId, resolveSingle pageDriver documentScope psel p = .ok a ∧
      isUnder a h = true := by
  rcases hp : resolveSingle pageDriver documentScope psel p with e | a
  · have hc := childScope_err pageDriver documentScope psel p e hp
    simp [resolveSingle, resolveAll, hc] at hres
  · refine ⟨a, rfl, ?_⟩
    have hc := childScope_ok pageDriver documentScope psel p a hp
    have hall : resolveAll pageDriver (childScope pageDriver documentScope psel)
        csel p = .ok (pageQuery p (some a) csel) := by
      simp only [resolveAll, hc]
      rfl
    rcases hq : pageQuery p (some a) csel with _ | ⟨h0, rest⟩
    · rw [hq] at hall
      simp [resolveSingle, hall] at hres
    · rw [hq] at hall
      have hh : h0 = h := by simpa [resolveSingle, hall] using hres
      have hmem : h ∈ pageQuery p (some a) csel := by
        rw [hq]
        exact hh ▸ List.mem_cons_self h0 rest
      exact pageQuery_inScope p (some a) csel h hmem

/-- Witness for C7: on the two-name-forms fixture, where `.first-name`
matches inputs in both forms, the child resolved through the first form's
scope lies inside that form's subtree. -/
theorem nested_scoping_inside_parent_witness :
    ∃ a : ElemId,
      resolveSingle pageDriver documentScope ".name-form-1" multiFormPage
        = .ok a ∧ isUnder a [0, 0] = true :=
  nested_scoping_inside_parent multiFormPage ".name-form-1" ".first-name"
    [0, 0] rfl

/-- C8: a multiple-cardinality collection supports length by re-querying,
positional indexing by re-querying and then selecting the position, and one
iteration pass performs exactly one re-query whose snapshot is then walked;
on the three-item list fixture, index 1 is the second item's text and
iteration reproduces all three items in document order. -/
theorem collection_requery_operations (p : Page) (i : Nat) :
    collectionLength pageDriver documentScope ListPage.list_items p
        = .ok (pageQuery p none ".mylist li").length ∧
    collectionIndex pageDriver documentScope ListPage.list_items i p
        = (match (pageQuery p none ".mylist li")[i]? with
           | some h => .ok h
           | none => .error (.transient .NotFound)) ∧
    collectionTexts pageDriver documentScope ListPage.list_items p
        = (pageQuery p none ".mylist li").mapM (pageReadText p) ∧
    collectionIndexText pageDriver documentScope ListPage.list_items 1
        listPage3 = .ok "second item" ∧
    collectionTexts pageDriver documentScope ListPage.list_items listPage3
        = .ok ["first item", "second item", "third item"] :=
  ⟨rfl, rfl, rfl, rfl, rfl⟩

/-- C9: the composite behavior `set_name` is not atomic: on the fixture
whose last-name input never becomes visible, it fails with the second
action's classified error (a timeout embedding `NotVisible`) for every
deadline and every pair of strings, while the first action's completed
effect — the first-name value `s1` — remains observable by a subsequent
direct read. -/
theorem composite_behavior_not_atomic (s1 s2 : String) (fuel : Nat) :
    (set_name fuel s1 s2 hiddenLastPage).1 = .error (.timeout .NotVisible) ∧
    (slotValue pageDriver documentScope NameForm.first_name 0
        (set_name fuel s1 s2 hiddenLastPage).2).1 = .ok s1 := by
  have h1 : slotSetText pageDriver documentScope NameForm.first_name s1 fuel
      hiddenLastPage = (.ok (), hiddenAfterFirst s1) :=
    withRetry_first_ok _ _ fuel _ () (hiddenAfterFirst s1) rfl
  have h2 : slotSetText pageDriver documentScope NameForm.last_name s2 fuel
      (hiddenAfterFirst s1)
      = (.error (.timeout .NotVisible), hiddenAfterFirst s1) := by
    apply withRetry_stuck
    · rfl
    · rfl
  have h3 : set_name fuel s1 s2 hiddenLastPage
      = (.error (.timeout .NotVisible), hiddenAfterFirst s1) := by
    unfold set_name
    rw [h1]
    exact h2
  rw [h3]
  exact ⟨rfl, rfl⟩

/-- C10: for a slot bound to `Css sel`, attribute access and the three
`Component.get` argument forms — the bare string, the `Css` descriptor and
the singleton descriptor list — resolve the same element in every state, and
a subsequent `set_text` through any of them performs the same operation with
the same result, for every driver, scope, deadline and text. -/
theorem get_forms_equivalent (σ : Type) (d : Driver σ) (scope : ScopeFn σ)
    (sel txt : String) (fuel : Nat) (s : σ) :
    componentGet d scope (.strSel sel) s = resolveSingle d scope sel s ∧
    componentGet d scope (.cssSel { selector := sel }) s
        = resolveSingle d scope sel s ∧
    componentGet d scope (.cssPath [{ selector := sel }]) s
        = resolveSingle d scope sel s ∧
    getSetText d scope (.strSel sel) txt fuel s
        = slotSetText d scope { selector := sel } txt fuel s ∧
    getSetText d scope (.cssSel { selector := sel }) txt fuel s
        = slotSetText d scope { selector := sel } txt fuel s ∧
    getSetText d scope (.cssPath [{ selector := sel }]) txt fuel s
        = slotSetText d scope { selector := sel } txt fuel s :=
  ⟨rfl, rfl, rfl, rfl, rfl, rfl⟩

end WebdriverComponents
